import Mathlib

/-!
Shallow embedding of `src/GraphicsWin32/src/main.cpp`, a minimal Win32 +
Direct2D application that opens a window and paints a filled ellipse.

Modelling choices:
* `float` fields (sizes in DIPs, colors, ellipse coordinates) are modelled
  as `Rat`; the only arithmetic the program performs on them is division by
  two and `min`, both exact in IEEE floats for these inputs.
* COM interface pointers are `Option` values: `none` is `NULL`, and
  `Release` followed by the `NULL` assignment of `SafeRelease` is modelled
  by replacing the option with `none` while reporting whether `Release`
  was invoked.
* `HRESULT` is `Int` (the value of the signed 32-bit code); `SUCCEEDED`
  is `0 ≤ hr` and `FAILED` is `hr < 0`, as in winerror.h.
* Results of calls into the OS / graphics API (`GetClientRect`,
  `CreateHwndRenderTarget`, `CreateSolidColorBrush`, `EndDraw`,
  `D2D1CreateFactory`, `DefWindowProc`) are supplied by an `Env` record,
  one per dispatched message.
* The drawing calls issued between `BeginDraw` and `EndDraw` are recorded
  as a list of `DrawCmd` values, in program order.
-/

namespace GraphicsWin32

/-- `D2D1_POINT_2F`: a 2-D point with float coordinates. -/
structure D2D1_POINT_2F where
  x : Rat
  y : Rat
deriving DecidableEq, Repr

/-- `D2D1_ELLIPSE`: center point plus the two radii. -/
structure D2D1_ELLIPSE where
  point : D2D1_POINT_2F
  radiusX : Rat
  radiusY : Rat
deriving DecidableEq, Repr

/-- `D2D1_COLOR_F`: an RGBA color with float channels. -/
structure D2D1_COLOR_F where
  r : Rat
  g : Rat
  b : Rat
  a : Rat
deriving DecidableEq, Repr

/-- `D2D1_SIZE_F`: a width/height pair in DIPs. -/
structure D2D1_SIZE_F where
  width : Rat
  height : Rat
deriving DecidableEq, Repr

/-- `D2D1_SIZE_U`: a width/height pair in pixels (`UINT32` fields). -/
structure D2D1_SIZE_U where
  width : Nat
  height : Nat
deriving DecidableEq, Repr

/-- `D2D1_FACTORY_TYPE`: the threading model requested when creating the
Direct2D factory. -/
inductive D2D1_FACTORY_TYPE where
  | SINGLE_THREADED
  | MULTI_THREADED
deriving DecidableEq, Repr

/-- The state of an `ID2D1HwndRenderTarget` that the program observes:
its current size, as returned by `GetSize` and updated by `Resize`. -/
structure ID2D1HwndRenderTarget where
  size : D2D1_SIZE_F
deriving DecidableEq, Repr

/-- The state of an `ID2D1SolidColorBrush` that the program observes:
the color it was created with. -/
structure ID2D1SolidColorBrush where
  color : D2D1_COLOR_F
deriving DecidableEq, Repr

/-- `D2D1::Point2F` helper. -/
def Point2F (x y : Rat) : D2D1_POINT_2F := ⟨x, y⟩

/-- `D2D1::Ellipse` helper. -/
def Ellipse (center : D2D1_POINT_2F) (radiusX radiusY : Rat) : D2D1_ELLIPSE :=
  ⟨center, radiusX, radiusY⟩

/-- `D2D1::SizeU` helper. -/
def SizeU (width height : Nat) : D2D1_SIZE_U := ⟨width, height⟩

/-- `D2D1::ColorF(r, g, b)` with the default alpha of `1.0`. -/
def ColorF (r g b : Rat) : D2D1_COLOR_F := ⟨r, g, b, 1⟩

/-- `D2D1::ColorF(D2D1::ColorF::BlanchedAlmond)`: the named color
`0xFFEBCD` expanded to float channels, default alpha `1.0`. -/
def BlanchedAlmond : D2D1_COLOR_F := ⟨255/255, 235/255, 205/255, 1⟩

/-- `S_OK`. -/
def S_OK : Int := 0

/-- `D2DERR_RECREATE_TARGET` (`0x8899000C` as a signed 32-bit value). -/
def D2DERR_RECREATE_TARGET : Int := -2003566580

/-- `SUCCEEDED(hr)`: non-negative `HRESULT`. -/
def SUCCEEDED (hr : Int) : Bool := decide (0 ≤ hr)

/-- `FAILED(hr)`: negative `HRESULT`. -/
def FAILED (hr : Int) : Bool := decide (hr < 0)

/-- `SafeRelease(T** ppT)`: if the pointer is non-`NULL`, call `Release`
and set it to `NULL`. Returns the new pointer value and whether `Release`
was invoked. -/
def SafeRelease {T : Type} (ppT : Option T) : Option T × Bool :=
  match ppT with
  | some _ => (none, true)
  | none => (none, false)

/-- The fields of `MainWindow` that the member functions read and write:
the three interface pointers and the ellipse. -/
structure MainWindow where
  pFactory : Option D2D1_FACTORY_TYPE
  pRenderTarget : Option ID2D1HwndRenderTarget
  pBrush : Option ID2D1SolidColorBrush
  ellipse : D2D1_ELLIPSE
deriving DecidableEq, Repr

/-- `MainWindow()`: the constructor initializes `pFactory`,
`pRenderTarget` and `pBrush` to `NULL` and does not initialize the
`ellipse` member; its indeterminate initial value is the parameter `e0`. -/
def MainWindow.ctor (e0 : D2D1_ELLIPSE) : MainWindow :=
  { pFactory := none, pRenderTarget := none, pBrush := none, ellipse := e0 }

/-- Results of the OS / graphics-API calls made while handling one
message: the client rectangle (`rc.right`, `rc.bottom` from
`GetClientRect`) and the `HRESULT`s the external calls return. -/
structure Env where
  clientRight : Nat
  clientBottom : Nat
  createTargetHr : Int
  createBrushHr : Int
  endDrawHr : Int
  createFactoryHr : Int
  defWindowProcResult : Int
deriving DecidableEq, Repr

/-- One drawing call issued on the render target between `BeginDraw` and
`EndDraw`. -/
inductive DrawCmd where
  | beginDraw
  | clear (color : D2D1_COLOR_F)
  | fillEllipse (e : D2D1_ELLIPSE) (brush : Option ID2D1SolidColorBrush)
  | endDraw
deriving DecidableEq, Repr

/-- `MainWindow::CalculateLayout`: if the render target exists, read its
size, and set the ellipse to the one centered at `(width/2, height/2)`
with both radii `min(width/2, height/2)`; otherwise do nothing. -/
def MainWindow.CalculateLayout (w : MainWindow) : MainWindow :=
  match w.pRenderTarget with
  | none => w
  | some rt =>
    let size := rt.size
    let x := size.width / 2
    let y := size.height / 2
    let radius := min x y
    { w with ellipse := Ellipse (Point2F x y) radius radius }

/-- `MainWindow::CreateGraphicsResources`: if `pRenderTarget` is `NULL`,
create the render target from the client rectangle, then (on success) the
red brush, then (on success) run `CalculateLayout`; otherwise return the
initial `S_OK` unchanged. Returns the final `hr` and the new state. -/
def MainWindow.CreateGraphicsResources (env : Env) (w : MainWindow) :
    Int × MainWindow :=
  match w.pRenderTarget with
  | some _ => (S_OK, w)
  | none =>
    let size := SizeU env.clientRight env.clientBottom
    let hr := env.createTargetHr
    if SUCCEEDED hr then
      let w1 := { w with
        pRenderTarget := some ⟨⟨(size.width : Rat), (size.height : Rat)⟩⟩ }
      let color := ColorF 1 0 0
      let hr2 := env.createBrushHr
      if SUCCEEDED hr2 then
        let w2 := { w1 with pBrush := some ⟨color⟩ }
        (hr2, w2.CalculateLayout)
      else
        (hr2, w1)
    else
      (hr, w)

/-- `MainWindow::DiscardGraphicsResources`: `SafeRelease` the render
target and the brush. Returns the new state and the number of `Release`
calls performed. -/
def MainWindow.DiscardGraphicsResources (w : MainWindow) : MainWindow × Nat :=
  let (rt, r1) := SafeRelease w.pRenderTarget
  let (br, r2) := SafeRelease w.pBrush
  ({ w with pRenderTarget := rt, pBrush := br },
   (if r1 then 1 else 0) + (if r2 then 1 else 0))

/-- Output of `MainWindow::OnPaint`: the updated window state, the
drawing calls issued this frame (empty when nothing was drawn), and the
number of `Release` calls performed by the device-loss branch. -/
structure PaintOut where
  window : MainWindow
  cmds : List DrawCmd
  releases : Nat
deriving DecidableEq, Repr

/-- `MainWindow::OnPaint`: run `CreateGraphicsResources`; on success,
`BeginDraw`, `Clear` with BlanchedAlmond, `FillEllipse` with the brush,
`EndDraw`; if `EndDraw` failed or returned `D2DERR_RECREATE_TARGET`,
discard the graphics resources. (`BeginPaint`/`EndPaint` only manage the
window's update region and are not part of the modelled state.) -/
def MainWindow.OnPaint (env : Env) (w : MainWindow) : PaintOut :=
  let (hr, w1) := w.CreateGraphicsResources env
  if SUCCEEDED hr then
    let cmds := [DrawCmd.beginDraw,
                 DrawCmd.clear BlanchedAlmond,
                 DrawCmd.fillEllipse w1.ellipse w1.pBrush,
                 DrawCmd.endDraw]
    let hr2 := env.endDrawHr
    if FAILED hr2 || decide (hr2 = D2DERR_RECREATE_TARGET) then
      let (w2, n) := w1.DiscardGraphicsResources
      ⟨w2, cmds, n⟩
    else
      ⟨w1, cmds, 0⟩
  else
    ⟨w1, [], 0⟩

/-- Output of `MainWindow::Resize`: the updated window state and whether
`InvalidateRect(m_hwnd, NULL, FALSE)` was called (the whole client area
added to the update region, no background erase). -/
structure ResizeOut where
  window : MainWindow
  invalidated : Bool
deriving DecidableEq, Repr

/-- `MainWindow::Resize`: if the render target exists, resize it to the
client rectangle, recompute the layout, and invalidate the whole client
area; otherwise do nothing. -/
def MainWindow.Resize (env : Env) (w : MainWindow) : ResizeOut :=
  match w.pRenderTarget with
  | none => ⟨w, false⟩
  | some _ =>
    let size := SizeU env.clientRight env.clientBottom
    let w1 := { w with
      pRenderTarget := some ⟨⟨(size.width : Rat), (size.height : Rat)⟩⟩ }
    ⟨w1.CalculateLayout, true⟩

/-- The window messages `MainWindow::HandleMessage` distinguishes. -/
inductive Msg where
  | WM_CREATE
  | WM_DESTROY
  | WM_PAINT
  | WM_SIZE
  | other (uMsg : Nat)
deriving DecidableEq, Repr

/-- Output of `MainWindow::HandleMessage`: the updated window state, the
`LRESULT`, whether `PostQuitMessage` was called, the drawing calls issued,
whether the client area was invalidated, and the number of `Release`
calls performed. -/
structure HMOut where
  window : MainWindow
  result : Int
  postedQuit : Bool
  cmds : List DrawCmd
  invalidated : Bool
  releases : Nat
deriving DecidableEq, Repr

/-- `MainWindow::HandleMessage`, the window procedure:
* `WM_CREATE`: create the Direct2D factory with
  `D2D1_FACTORY_TYPE_SINGLE_THREADED`; on failure return `-1` (failing
  `CreateWindowEx`), on success return `0`.
* `WM_DESTROY`: `DiscardGraphicsResources`, `SafeRelease(&pFactory)`,
  `PostQuitMessage(0)`, return `0`.
* `WM_PAINT`: `OnPaint`, return `0`.
* `WM_SIZE`: `Resize`, return `0`.
* anything else: `DefWindowProc`. -/
def MainWindow.HandleMessage (env : Env) (uMsg : Msg) (w : MainWindow) :
    HMOut :=
  match uMsg with
  | .WM_CREATE =>
    if FAILED env.createFactoryHr then
      ⟨w, -1, false, [], false, 0⟩
    else
      ⟨{ w with pFactory := some D2D1_FACTORY_TYPE.SINGLE_THREADED },
       0, false, [], false, 0⟩
  | .WM_DESTROY =>
    let (w1, n1) := w.DiscardGraphicsResources
    let (pf, r) := SafeRelease w1.pFactory
    ⟨{ w1 with pFactory := pf }, 0, true, [], false,
     n1 + (if r then 1 else 0)⟩
  | .WM_PAINT =>
    let p := w.OnPaint env
    ⟨p.window, 0, false, p.cmds, false, p.releases⟩
  | .WM_SIZE =>
    let r := w.Resize env
    ⟨r.window, 0, false, [], r.invalidated, 0⟩
  | .other _ =>
    ⟨w, env.defWindowProcResult, false, [], false, 0⟩

/-- The states a `MainWindow` reaches: fold `HandleMessage` over a list
of dispatched messages, starting from the constructed window (`wWinMain`
constructs the window and then dispatches messages from its loop). -/
def runMessages (e0 : D2D1_ELLIPSE) (evs : List (Env × Msg)) : MainWindow :=
  evs.foldl (fun w p => (w.HandleMessage p.1 p.2).window) (MainWindow.ctor e0)

/-- Whether every `fillEllipse` command in a list draws a circle
(equal radii). -/
def allFillsCircular (cmds : List DrawCmd) : Bool :=
  cmds.all fun c =>
    match c with
    | .fillEllipse e _ => decide (e.radiusX = e.radiusY)
    | _ => true

end GraphicsWin32

namespace GraphicsWin32

/-! ### Helper lemmas -/

theorem succeeded_iff {hr : Int} : SUCCEEDED hr = true ↔ 0 ≤ hr := by
  simp [SUCCEEDED]

theorem failed_iff {hr : Int} : FAILED hr = true ↔ hr < 0 := by
  simp [FAILED]

theorem createGraphicsResources_of_some (env : Env) (w : MainWindow)
    (h : w.pRenderTarget.isSome = true) :
    w.CreateGraphicsResources env = (S_OK, w) := by
  rcases hrt : w.pRenderTarget with _ | rt
  · rw [hrt] at h; simp at h
  · simp [MainWindow.CreateGraphicsResources, hrt]

theorem createGraphicsResources_target_isSome (env : Env) (w : MainWindow)
    (h : SUCCEEDED (w.CreateGraphicsResources env).1 = true) :
    ((w.CreateGraphicsResources env).2.pRenderTarget).isSome = true := by
  rcases hrt : w.pRenderTarget with _ | rt
  · by_cases ht : SUCCEEDED env.createTargetHr = true
    · by_cases hb : SUCCEEDED env.createBrushHr = true
      · simp [MainWindow.CreateGraphicsResources, hrt, ht, hb,
              MainWindow.CalculateLayout]
      · simp only [Bool.not_eq_true] at hb
        simp [MainWindow.CreateGraphicsResources, hrt, ht, hb]
    · simp only [Bool.not_eq_true] at ht
      simp [MainWindow.CreateGraphicsResources, hrt, ht] at h
  · simp [MainWindow.CreateGraphicsResources, hrt]

/-! ### C1: CalculateLayout computes the largest centered circle -/

/-- C1: For every render-target size `w × h`, `CalculateLayout` sets the
ellipse to the circle centered at `(w/2, h/2)` whose two radii both equal
`min(w/2, h/2)`; when `pRenderTarget` is `NULL`, `CalculateLayout` leaves
the window (in particular the ellipse) unchanged. -/
theorem calculateLayout_circle (w : MainWindow) :
    (∀ rt, w.pRenderTarget = some rt →
      (w.CalculateLayout).ellipse =
        Ellipse (Point2F (rt.size.width / 2) (rt.size.height / 2))
          (min (rt.size.width / 2) (rt.size.height / 2))
          (min (rt.size.width / 2) (rt.size.height / 2))) ∧
    (w.pRenderTarget = none → w.CalculateLayout = w) := by
  constructor
  · intro rt hrt
    simp [MainWindow.CalculateLayout, hrt]
  · intro hrt
    simp [MainWindow.CalculateLayout, hrt]

/-- Witness for C1 at the concrete render-target size `8 × 6`. -/
theorem calculateLayout_circle_witness :
    (MainWindow.mk none (some ⟨⟨8, 6⟩⟩) none (Ellipse (Point2F 0 0) 1 2)).CalculateLayout.ellipse =
      Ellipse (Point2F (8 / 2) (6 / 2)) (min (8 / 2) (6 / 2))
        (min (8 / 2) (6 / 2)) :=
  (calculateLayout_circle
    (MainWindow.mk none (some ⟨⟨8, 6⟩⟩) none (Ellipse (Point2F 0 0) 1 2))).1
    ⟨⟨8, 6⟩⟩ rfl

/-! ### C5: lazy resource creation -/

/-- C5: Graphics resources are created lazily: when `pRenderTarget`
already exists, `CreateGraphicsResources` returns `S_OK` and leaves all
state unchanged; when it is `NULL` and the call succeeds, the render
target, the brush and the layout have all been created (the final state
is the old one with the new target, the red brush, and the recomputed
ellipse). -/
theorem createGraphicsResources_lazy (env : Env) (w : MainWindow) :
    (w.pRenderTarget.isSome = true →
      w.CreateGraphicsResources env = (S_OK, w)) ∧
    (w.pRenderTarget = none →
      SUCCEEDED (w.CreateGraphicsResources env).1 = true →
      (w.CreateGraphicsResources env).2 =
        { w with
          pRenderTarget :=
            some ⟨⟨(env.clientRight : Rat), (env.clientBottom : Rat)⟩⟩
          pBrush := some ⟨ColorF 1 0 0⟩
          ellipse :=
            Ellipse
              (Point2F ((env.clientRight : Rat) / 2)
                ((env.clientBottom : Rat) / 2))
              (min ((env.clientRight : Rat) / 2) ((env.clientBottom : Rat) / 2))
              (min ((env.clientRight : Rat) / 2)
                ((env.clientBottom : Rat) / 2)) }) := by
  constructor
  · exact createGraphicsResources_of_some env w
  · intro hrt h
    by_cases ht : SUCCEEDED env.createTargetHr = true
    · by_cases hb : SUCCEEDED env.createBrushHr = true
      · simp [MainWindow.CreateGraphicsResources, hrt, ht, hb,
              MainWindow.CalculateLayout, SizeU, Ellipse, Point2F]
      · simp only [Bool.not_eq_true] at hb
        simp [MainWindow.CreateGraphicsResources, hrt, ht, hb] at h
    · simp only [Bool.not_eq_true] at ht
      simp [MainWindow.CreateGraphicsResources, hrt, ht] at h

/-- Witness for C5: both branches at concrete inputs (an existing
target of size `4 × 6`, and a fresh window with an all-success
environment and client rectangle `10 × 4`). -/
theorem createGraphicsResources_lazy_witness :
    ((MainWindow.mk none (some ⟨⟨4, 6⟩⟩) none
        (Ellipse (Point2F 0 0) 1 2)).CreateGraphicsResources
          ⟨10, 4, 0, 0, 0, 0, 0⟩ =
      (S_OK, MainWindow.mk none (some ⟨⟨4, 6⟩⟩) none
        (Ellipse (Point2F 0 0) 1 2))) ∧
    ((MainWindow.ctor (Ellipse (Point2F 0 0) 1 2)).CreateGraphicsResources
        ⟨10, 4, 0, 0, 0, 0, 0⟩).2 =
      { MainWindow.ctor (Ellipse (Point2F 0 0) 1 2) with
        pRenderTarget := some ⟨⟨(10 : Rat), (4 : Rat)⟩⟩
        pBrush := some ⟨ColorF 1 0 0⟩
        ellipse :=
          Ellipse (Point2F ((10 : Rat) / 2) ((4 : Rat) / 2))
            (min ((10 : Rat) / 2) ((4 : Rat) / 2))
            (min ((10 : Rat) / 2) ((4 : Rat) / 2)) } :=
  ⟨(createGraphicsResources_lazy ⟨10, 4, 0, 0, 0, 0, 0⟩
      (MainWindow.mk none (some ⟨⟨4, 6⟩⟩) none
        (Ellipse (Point2F 0 0) 1 2))).1 rfl,
   (createGraphicsResources_lazy ⟨10, 4, 0, 0, 0, 0, 0⟩
      (MainWindow.ctor (Ellipse (Point2F 0 0) 1 2))).2 rfl (by decide)⟩

/-! ### C10: DiscardGraphicsResources is idempotent -/

/-- C10: After one call to `DiscardGraphicsResources` both
`pRenderTarget` and `pBrush` are `NULL`, and a second call releases
nothing (zero `Release` calls) and leaves all state unchanged, because
`SafeRelease` is a no-op on a `NULL` pointer. -/
theorem discardGraphicsResources_idempotent (w : MainWindow) :
    (w.DiscardGraphicsResources.1.pRenderTarget = none ∧
     w.DiscardGraphicsResources.1.pBrush = none) ∧
    w.DiscardGraphicsResources.1.DiscardGraphicsResources =
      (w.DiscardGraphicsResources.1, 0) ∧
    (SafeRelease (none : Option ID2D1HwndRenderTarget) = (none, false)) := by
  rcases w with ⟨pf, rt, br, e⟩
  cases rt <;> cases br <;>
    simp [MainWindow.DiscardGraphicsResources, SafeRelease]

/-! ### C7: the device-loss branch resets two pointers, not one -/

/-- Number of interface-pointer fields of the window (among `pFactory`,
`pRenderTarget`, `pBrush`) that go from non-`NULL` in `w` to `NULL` in
`w2`. -/
def resetPointerCount (w w2 : MainWindow) : Nat :=
  (if w.pFactory.isSome ∧ w2.pFactory = none then 1 else 0) +
  (if w.pRenderTarget.isSome ∧ w2.pRenderTarget = none then 1 else 0) +
  (if w.pBrush.isSome ∧ w2.pBrush = none then 1 else 0)

/-- C7 counterexample: starting from a fully populated window (factory,
render target and brush all non-`NULL`), a paint whose `EndDraw` returns
`D2DERR_RECREATE_TARGET` runs the device-loss branch and resets TWO
resource pointers (`pRenderTarget` and `pBrush`), not exactly one. -/
theorem onPaint_device_loss_resets_two_cex :
    resetPointerCount
      (MainWindow.mk (some D2D1_FACTORY_TYPE.SINGLE_THREADED)
        (some ⟨⟨4, 6⟩⟩) (some ⟨ColorF 1 0 0⟩) (Ellipse (Point2F 2 3) 2 2))
      ((MainWindow.mk (some D2D1_FACTORY_TYPE.SINGLE_THREADED)
        (some ⟨⟨4, 6⟩⟩) (some ⟨ColorF 1 0 0⟩)
        (Ellipse (Point2F 2 3) 2 2)).OnPaint
          ⟨4, 6, 0, 0, D2DERR_RECREATE_TARGET, 0, 0⟩).window = 2 ∧
    ¬ resetPointerCount
      (MainWindow.mk (some D2D1_FACTORY_TYPE.SINGLE_THREADED)
        (some ⟨⟨4, 6⟩⟩) (some ⟨ColorF 1 0 0⟩) (Ellipse (Point2F 2 3) 2 2))
      ((MainWindow.mk (some D2D1_FACTORY_TYPE.SINGLE_THREADED)
        (some ⟨⟨4, 6⟩⟩) (some ⟨ColorF 1 0 0⟩)
        (Ellipse (Point2F 2 3) 2 2)).OnPaint
          ⟨4, 6, 0, 0, D2DERR_RECREATE_TARGET, 0, 0⟩).window = 1 := by
  decide

/-- C7 amended: when `OnPaint`'s device-loss branch runs (the paint drew
and `EndDraw` failed), both resource pointers `pRenderTarget` and
`pBrush` are reset to `NULL` — each non-`NULL` one being released — and
no other field of the window changes relative to the state the paint drew
from (`pFactory` and `ellipse` are untouched). -/
theorem onPaint_device_loss_resets_both (env : Env) (w : MainWindow)
    (h1 : SUCCEEDED (w.CreateGraphicsResources env).1 = true)
    (h2 : FAILED env.endDrawHr = true) :
    (w.OnPaint env).window.pRenderTarget = none ∧
    (w.OnPaint env).window.pBrush = none ∧
    (w.OnPaint env).window.pFactory =
      (w.CreateGraphicsResources env).2.pFactory ∧
    (w.OnPaint env).window.ellipse =
      (w.CreateGraphicsResources env).2.ellipse ∧
    (w.OnPaint env).releases =
      (if ((w.CreateGraphicsResources env).2.pRenderTarget).isSome
        then 1 else 0) +
      (if ((w.CreateGraphicsResources env).2.pBrush).isSome
        then 1 else 0) := by
  rcases hcgr : w.CreateGraphicsResources env with ⟨hr, w1⟩
  have hfail : (FAILED env.endDrawHr ||
      decide (env.endDrawHr = D2DERR_RECREATE_TARGET)) = true := by
    simp [h2]
  rw [hcgr] at h1
  simp only at h1
  rcases w1 with ⟨pf, rt, br, e⟩
  cases rt <;> cases br <;>
    simp [MainWindow.OnPaint, hcgr, h1, hfail,
          MainWindow.DiscardGraphicsResources, SafeRelease]

/-- Witness for the amended C7 at a concrete fully populated window and
an environment whose `EndDraw` reports a lost device. -/
theorem onPaint_device_loss_resets_both_witness :
    ((MainWindow.mk none (some ⟨⟨4, 6⟩⟩) (some ⟨ColorF 1 0 0⟩)
        (Ellipse (Point2F 2 3) 2 2)).OnPaint
          ⟨4, 6, 0, 0, D2DERR_RECREATE_TARGET, 0, 0⟩).window.pRenderTarget
        = none ∧
    ((MainWindow.mk none (some ⟨⟨4, 6⟩⟩) (some ⟨ColorF 1 0 0⟩)
        (Ellipse (Point2F 2 3) 2 2)).OnPaint
          ⟨4, 6, 0, 0, D2DERR_RECREATE_TARGET, 0, 0⟩).window.pBrush = none ∧
    ((MainWindow.mk none (some ⟨⟨4, 6⟩⟩) (some ⟨ColorF 1 0 0⟩)
        (Ellipse (Point2F 2 3) 2 2)).OnPaint
          ⟨4, 6, 0, 0, D2DERR_RECREATE_TARGET, 0, 0⟩).window.pFactory =
      (((MainWindow.mk none (some ⟨⟨4, 6⟩⟩) (some ⟨ColorF 1 0 0⟩)
        (Ellipse (Point2F 2 3) 2 2)).CreateGraphicsResources
          ⟨4, 6, 0, 0, D2DERR_RECREATE_TARGET, 0, 0⟩).2.pFactory) ∧
    ((MainWindow.mk none (some ⟨⟨4, 6⟩⟩) (some ⟨ColorF 1 0 0⟩)
        (Ellipse (Point2F 2 3) 2 2)).OnPaint
          ⟨4, 6, 0, 0, D2DERR_RECREATE_TARGET, 0, 0⟩).window.ellipse =
      (((MainWindow.mk none (some ⟨⟨4, 6⟩⟩) (some ⟨ColorF 1 0 0⟩)
        (Ellipse (Point2F 2 3) 2 2)).CreateGraphicsResources
          ⟨4, 6, 0, 0, D2DERR_RECREATE_TARGET, 0, 0⟩).2.ellipse) ∧
    ((MainWindow.mk none (some ⟨⟨4, 6⟩⟩) (some ⟨ColorF 1 0 0⟩)
        (Ellipse (Point2F 2 3) 2 2)).OnPaint
          ⟨4, 6, 0, 0, D2DERR_RECREATE_TARGET, 0, 0⟩).releases =
      (if ((((MainWindow.mk none (some ⟨⟨4, 6⟩⟩) (some ⟨ColorF 1 0 0⟩)
        (Ellipse (Point2F 2 3) 2 2)).CreateGraphicsResources
          ⟨4, 6, 0, 0, D2DERR_RECREATE_TARGET, 0, 0⟩).2.pRenderTarget).isSome)
        then 1 else 0) +
      (if ((((MainWindow.mk none (some ⟨⟨4, 6⟩⟩) (some ⟨ColorF 1 0 0⟩)
        (Ellipse (Point2F 2 3) 2 2)).CreateGraphicsResources
          ⟨4, 6, 0, 0, D2DERR_RECREATE_TARGET, 0, 0⟩).2.pBrush).isSome)
        then 1 else 0) :=
  onPaint_device_loss_resets_both
    ⟨4, 6, 0, 0, D2DERR_RECREATE_TARGET, 0, 0⟩
    (MainWindow.mk none (some ⟨⟨4, 6⟩⟩) (some ⟨ColorF 1 0 0⟩)
      (Ellipse (Point2F 2 3) 2 2)) (by decide) (by decide)

/-! ### C6: WM_DESTROY releases everything and posts quit -/

/-- C6: On `WM_DESTROY`, `HandleMessage` runs `SafeRelease` over all
three interface pointers (`pRenderTarget`, `pBrush`, `pFactory`): each is
set to `NULL`, each one that was non-`NULL` is released (so the number of
`Release` calls equals the number of live pointers), the quit message is
posted, and the result is `0`. -/
theorem handleMessage_destroy_releases_all (env : Env) (w : MainWindow) :
    (w.HandleMessage env Msg.WM_DESTROY).window.pRenderTarget = none ∧
    (w.HandleMessage env Msg.WM_DESTROY).window.pBrush = none ∧
    (w.HandleMessage env Msg.WM_DESTROY).window.pFactory = none ∧
    (w.HandleMessage env Msg.WM_DESTROY).postedQuit = true ∧
    (w.HandleMessage env Msg.WM_DESTROY).result = 0 ∧
    (w.HandleMessage env Msg.WM_DESTROY).releases =
      ((if w.pRenderTarget.isSome then 1 else 0) +
       (if w.pBrush.isSome then 1 else 0)) +
      (if w.pFactory.isSome then 1 else 0) := by
  rcases w with ⟨pf, rt, br, e⟩
  cases pf <;> cases rt <;> cases br <;>
    simp [MainWindow.HandleMessage, MainWindow.DiscardGraphicsResources,
          SafeRelease]

/-! ### C4: WM_SIZE relayouts only when the render target exists -/

/-- C4 counterexample: a `WM_SIZE` received before the render target
exists (e.g. on a freshly constructed window) changes nothing: `Resize`
returns immediately, so the layout is not recomputed and no repaint is
forced (`InvalidateRect` is not called), refuting "for every WM_SIZE
message". -/
theorem handleMessage_size_no_target_cex :
    ((MainWindow.ctor (Ellipse (Point2F 0 0) 1 2)).HandleMessage
        ⟨8, 6, 0, 0, 0, 0, 0⟩ Msg.WM_SIZE).invalidated = false ∧
    ((MainWindow.ctor (Ellipse (Point2F 0 0) 1 2)).HandleMessage
        ⟨8, 6, 0, 0, 0, 0, 0⟩ Msg.WM_SIZE).window =
      MainWindow.ctor (Ellipse (Point2F 0 0) 1 2) := by
  decide

/-- C4 amended: for every `WM_SIZE` message received while the render
target exists, the render target is resized to the new client-area
rectangle, the circle layout is recomputed from it, and a repaint of the
whole client area is forced; when `pRenderTarget` is `NULL`, `Resize`
does nothing. -/
theorem handleMessage_size_relayout (env : Env) (w : MainWindow)
    (h : w.pRenderTarget.isSome = true) :
    (w.HandleMessage env Msg.WM_SIZE).window.pRenderTarget =
      some ⟨⟨(env.clientRight : Rat), (env.clientBottom : Rat)⟩⟩ ∧
    (w.HandleMessage env Msg.WM_SIZE).window.ellipse =
      Ellipse
        (Point2F ((env.clientRight : Rat) / 2) ((env.clientBottom : Rat) / 2))
        (min ((env.clientRight : Rat) / 2) ((env.clientBottom : Rat) / 2))
        (min ((env.clientRight : Rat) / 2) ((env.clientBottom : Rat) / 2)) ∧
    (w.HandleMessage env Msg.WM_SIZE).invalidated = true ∧
    (w.HandleMessage env Msg.WM_SIZE).result = 0 := by
  rcases hrt : w.pRenderTarget with _ | rt
  · rw [hrt] at h; simp at h
  · simp [MainWindow.HandleMessage, MainWindow.Resize, hrt,
          MainWindow.CalculateLayout, SizeU, Ellipse, Point2F]

/-- Witness for the amended C4: a window holding a `4 × 6` render target
receives `WM_SIZE` with new client rectangle `10 × 2`. -/
theorem handleMessage_size_relayout_witness :
    ((MainWindow.mk none (some ⟨⟨4, 6⟩⟩) (some ⟨ColorF 1 0 0⟩)
        (Ellipse (Point2F 2 3) 2 2)).HandleMessage
          ⟨10, 2, 0, 0, 0, 0, 0⟩ Msg.WM_SIZE).window.pRenderTarget =
      some ⟨⟨(10 : Rat), (2 : Rat)⟩⟩ ∧
    ((MainWindow.mk none (some ⟨⟨4, 6⟩⟩) (some ⟨ColorF 1 0 0⟩)
        (Ellipse (Point2F 2 3) 2 2)).HandleMessage
          ⟨10, 2, 0, 0, 0, 0, 0⟩ Msg.WM_SIZE).window.ellipse =
      Ellipse (Point2F ((10 : Rat) / 2) ((2 : Rat) / 2))
        (min ((10 : Rat) / 2) ((2 : Rat) / 2))
        (min ((10 : Rat) / 2) ((2 : Rat) / 2)) ∧
    ((MainWindow.mk none (some ⟨⟨4, 6⟩⟩) (some ⟨ColorF 1 0 0⟩)
        (Ellipse (Point2F 2 3) 2 2)).HandleMessage
          ⟨10, 2, 0, 0, 0, 0, 0⟩ Msg.WM_SIZE).invalidated = true ∧
    ((MainWindow.mk none (some ⟨⟨4, 6⟩⟩) (some ⟨ColorF 1 0 0⟩)
        (Ellipse (Point2F 2 3) 2 2)).HandleMessage
          ⟨10, 2, 0, 0, 0, 0, 0⟩ Msg.WM_SIZE).result = 0 :=
  handleMessage_size_relayout ⟨10, 2, 0, 0, 0, 0, 0⟩
    (MainWindow.mk none (some ⟨⟨4, 6⟩⟩) (some ⟨ColorF 1 0 0⟩)
      (Ellipse (Point2F 2 3) 2 2)) rfl

/-! ### C3: device loss is recovered by discard and recreate -/

/-- C3: When a paint drew and `EndDraw` returned a failing `HRESULT`
(`D2DERR_RECREATE_TARGET` or any other), `OnPaint` discards the graphics
resources (`pRenderTarget` and `pBrush` become `NULL`), and a next
invocation of `OnPaint` whose creation calls succeed recreates the render
target and the brush before drawing (both are non-`NULL` in the state the
frame is drawn from, and the four drawing calls are issued); when
`EndDraw` succeeds, the resources are kept — the state is exactly the one
`CreateGraphicsResources` produced. -/
theorem onPaint_device_lost_recovery (env env2 : Env) (w : MainWindow)
    (h1 : SUCCEEDED (w.CreateGraphicsResources env).1 = true) :
    (SUCCEEDED env.endDrawHr = true →
      (w.OnPaint env).window = (w.CreateGraphicsResources env).2) ∧
    (FAILED env.endDrawHr = true →
      (w.OnPaint env).window.pRenderTarget = none ∧
      (w.OnPaint env).window.pBrush = none ∧
      (SUCCEEDED env2.createTargetHr = true →
        SUCCEEDED env2.createBrushHr = true →
        ((((w.OnPaint env).window.CreateGraphicsResources env2).2.pRenderTarget).isSome
            = true ∧
         ((((w.OnPaint env).window.CreateGraphicsResources env2).2.pBrush)).isSome
            = true ∧
         ((w.OnPaint env).window.OnPaint env2).cmds =
           [DrawCmd.beginDraw,
            DrawCmd.clear BlanchedAlmond,
            DrawCmd.fillEllipse
              (((w.OnPaint env).window.CreateGraphicsResources env2).2.ellipse)
              (((w.OnPaint env).window.CreateGraphicsResources env2).2.pBrush),
            DrawCmd.endDraw]))) := by
  rcases hcgr : w.CreateGraphicsResources env with ⟨hr, w1⟩
  rw [hcgr] at h1
  simp only at h1
  constructor
  · intro hok
    have hnofail : FAILED env.endDrawHr = false := by
      rw [succeeded_iff] at hok
      simp [FAILED]
      omega
    have hneq : decide (env.endDrawHr = D2DERR_RECREATE_TARGET) = false := by
      rw [succeeded_iff] at hok
      simp [D2DERR_RECREATE_TARGET]
      omega
    simp [MainWindow.OnPaint, hcgr, h1, hnofail, hneq]
  · intro hfail
    have hdiscard : ((w.OnPaint env).window) =
        w1.DiscardGraphicsResources.1 := by
      simp [MainWindow.OnPaint, hcgr, h1, hfail]
    have hrt : (w.OnPaint env).window.pRenderTarget = none ∧
        (w.OnPaint env).window.pBrush = none := by
      rw [hdiscard]
      rcases w1 with ⟨pf, rt, br, e⟩
      cases rt <;> cases br <;>
        simp [MainWindow.DiscardGraphicsResources, SafeRelease]
    refine ⟨hrt.1, hrt.2, ?_⟩
    intro ht2 hb2
    rcases hw2 : (w.OnPaint env).window with ⟨pf2, rt2, br2, e2⟩
    have hrt2 : rt2 = none := by
      have := hrt.1
      rw [hw2] at this
      exact this
    subst hrt2
    have hcgr2 :
        (MainWindow.mk pf2 none br2 e2).CreateGraphicsResources env2 =
          (env2.createBrushHr,
            (MainWindow.mk pf2
              (some ⟨⟨(env2.clientRight : Rat), (env2.clientBottom : Rat)⟩⟩)
              (some ⟨ColorF 1 0 0⟩) e2).CalculateLayout) := by
      simp [MainWindow.CreateGraphicsResources, ht2, hb2, SizeU]
    refine ⟨?_, ?_, ?_⟩
    · rw [hcgr2]
      simp [MainWindow.CalculateLayout]
    · rw [hcgr2]
      simp [MainWindow.CalculateLayout]
    · rw [succeeded_iff] at hb2
      simp [MainWindow.OnPaint, hcgr2, SUCCEEDED, hb2]
      split <;> rfl

/-- Witness for C3 at a concrete run: a fresh window paints with
`EndDraw` reporting `D2DERR_RECREATE_TARGET`, then paints again with an
all-success environment. -/
theorem onPaint_device_lost_recovery_witness :
    (FAILED (Env.mk 4 6 0 0 D2DERR_RECREATE_TARGET 0 0).endDrawHr = true) ∧
    (((MainWindow.ctor (Ellipse (Point2F 0 0) 1 2)).OnPaint
        ⟨4, 6, 0, 0, D2DERR_RECREATE_TARGET, 0, 0⟩).window.pRenderTarget
          = none ∧
     ((MainWindow.ctor (Ellipse (Point2F 0 0) 1 2)).OnPaint
        ⟨4, 6, 0, 0, D2DERR_RECREATE_TARGET, 0, 0⟩).window.pBrush = none ∧
     (SUCCEEDED (Env.mk 8 2 0 0 0 0 0).createTargetHr = true →
       SUCCEEDED (Env.mk 8 2 0 0 0 0 0).createBrushHr = true →
       (((((MainWindow.ctor (Ellipse (Point2F 0 0) 1 2)).OnPaint
            ⟨4, 6, 0, 0, D2DERR_RECREATE_TARGET, 0, 0⟩).window.CreateGraphicsResources
              ⟨8, 2, 0, 0, 0, 0, 0⟩).2.pRenderTarget).isSome = true ∧
        (((((MainWindow.ctor (Ellipse (Point2F 0 0) 1 2)).OnPaint
            ⟨4, 6, 0, 0, D2DERR_RECREATE_TARGET, 0, 0⟩).window.CreateGraphicsResources
              ⟨8, 2, 0, 0, 0, 0, 0⟩).2.pBrush)).isSome = true ∧
        ((((MainWindow.ctor (Ellipse (Point2F 0 0) 1 2)).OnPaint
            ⟨4, 6, 0, 0, D2DERR_RECREATE_TARGET, 0, 0⟩).window).OnPaint
              ⟨8, 2, 0, 0, 0, 0, 0⟩).cmds =
          [DrawCmd.beginDraw,
           DrawCmd.clear BlanchedAlmond,
           DrawCmd.fillEllipse
             (((((MainWindow.ctor (Ellipse (Point2F 0 0) 1 2)).OnPaint
                ⟨4, 6, 0, 0, D2DERR_RECREATE_TARGET, 0, 0⟩).window).CreateGraphicsResources
                  ⟨8, 2, 0, 0, 0, 0, 0⟩).2.ellipse)
             (((((MainWindow.ctor (Ellipse (Point2F 0 0) 1 2)).OnPaint
                ⟨4, 6, 0, 0, D2DERR_RECREATE_TARGET, 0, 0⟩).window).CreateGraphicsResources
                  ⟨8, 2, 0, 0, 0, 0, 0⟩).2.pBrush),
           DrawCmd.endDraw]))) :=
  ⟨by decide,
   (onPaint_device_lost_recovery ⟨4, 6, 0, 0, D2DERR_RECREATE_TARGET, 0, 0⟩
      ⟨8, 2, 0, 0, 0, 0, 0⟩
      (MainWindow.ctor (Ellipse (Point2F 0 0) 1 2)) (by decide)).2 (by decide)⟩

/-! ### Trace invariants -/

/-- Every brush the window holds was created with the red color: the only
creation site, in `CreateGraphicsResources`, uses `ColorF(1.0f, 0, 0)`. -/
def brushRed (w : MainWindow) : Prop :=
  ∀ b, w.pBrush = some b → b.color = ColorF 1 0 0

theorem brushRed_createGraphicsResources (env : Env) (w : MainWindow)
    (h : brushRed w) : brushRed (w.CreateGraphicsResources env).2 := by
  rcases hrt : w.pRenderTarget with _ | rt
  · by_cases ht : SUCCEEDED env.createTargetHr = true
    · by_cases hb : SUCCEEDED env.createBrushHr = true
      · intro b hbr
        simp [MainWindow.CreateGraphicsResources, hrt, ht, hb,
              MainWindow.CalculateLayout] at hbr
        simp [← hbr]
      · simp only [Bool.not_eq_true] at hb
        intro b hbr
        simp [MainWindow.CreateGraphicsResources, hrt, ht, hb] at hbr
        exact h b hbr
    · simp only [Bool.not_eq_true] at ht
      intro b hbr
      simp [MainWindow.CreateGraphicsResources, hrt, ht] at hbr
      exact h b hbr
  · intro b hbr
    rw [createGraphicsResources_of_some env w (by rw [hrt]; rfl)] at hbr
    exact h b hbr

theorem brushRed_onPaint (env : Env) (w : MainWindow) (h : brushRed w) :
    brushRed (w.OnPaint env).window := by
  rcases hcgr : w.CreateGraphicsResources env with ⟨hr, w1⟩
  have h1 : brushRed w1 := by
    have := brushRed_createGraphicsResources env w h
    rw [hcgr] at this
    exact this
  by_cases hs : SUCCEEDED hr = true
  · by_cases hf : (FAILED env.endDrawHr ||
        decide (env.endDrawHr = D2DERR_RECREATE_TARGET)) = true
    · intro b hbr
      rcases w1 with ⟨pf, rt, br, e⟩
      cases rt <;> cases br <;>
        simp [MainWindow.OnPaint, hcgr, hs, hf,
              MainWindow.DiscardGraphicsResources, SafeRelease] at hbr
    · simp only [Bool.not_eq_true] at hf
      intro b hbr
      simp [MainWindow.OnPaint, hcgr, hs, hf] at hbr
      exact h1 b hbr
  · simp only [Bool.not_eq_true] at hs
    intro b hbr
    simp [MainWindow.OnPaint, hcgr, hs] at hbr
    exact h1 b hbr

theorem brushRed_handleMessage (env : Env) (m : Msg) (w : MainWindow)
    (h : brushRed w) : brushRed (w.HandleMessage env m).window := by
  cases m with
  | WM_CREATE =>
    by_cases hf : FAILED env.createFactoryHr = true
    · intro b hbr
      simp [MainWindow.HandleMessage, hf] at hbr
      exact h b hbr
    · simp only [Bool.not_eq_true] at hf
      intro b hbr
      simp [MainWindow.HandleMessage, hf] at hbr
      exact h b hbr
  | WM_DESTROY =>
    intro b hbr
    have := (handleMessage_destroy_releases_all env w).2.1
    rw [this] at hbr
    exact absurd hbr (by simp)
  | WM_PAINT =>
    intro b hbr
    exact brushRed_onPaint env w h b (by
      simpa [MainWindow.HandleMessage] using hbr)
  | WM_SIZE =>
    rcases hrt : w.pRenderTarget with _ | rt
    · intro b hbr
      simp [MainWindow.HandleMessage, MainWindow.Resize, hrt] at hbr
      exact h b hbr
    · intro b hbr
      simp [MainWindow.HandleMessage, MainWindow.Resize, hrt,
            MainWindow.CalculateLayout] at hbr
      exact h b hbr
  | other u =>
    intro b hbr
    simp [MainWindow.HandleMessage] at hbr
    exact h b hbr

theorem brushRed_runMessages (e0 : D2D1_ELLIPSE) (evs : List (Env × Msg)) :
    brushRed (runMessages e0 evs) := by
  have key : ∀ (l : List (Env × Msg)) (w : MainWindow), brushRed w →
      brushRed (l.foldl (fun w p => (w.HandleMessage p.1 p.2).window) w) := by
    intro l
    induction l with
    | nil => intro w h; exact h
    | cons p rest ih =>
      intro w h
      exact ih _ (brushRed_handleMessage p.1 p.2 w h)
  exact key evs (MainWindow.ctor e0) (by intro b hbr; simp [MainWindow.ctor] at hbr)

/-! ### C2: a successful paint clears then fills, with a red brush -/

/-- C2 (amended): On every successful paint of the running program — any
state reached from the constructor by dispatched messages, with
`CreateGraphicsResources` returning success — `OnPaint` issues, between
`BeginDraw` and `EndDraw`, first a `Clear` of the whole render target
with the one solid color BlanchedAlmond and then a `FillEllipse` with
the window's brush pointer, and every brush the window ever holds was
created with the pure red color `r = 1, g = 0, b = 0`. (The original
claim's presumption that the brush always exists fails on one path: see
the counterexample, where the fill carries a `NULL` brush.) -/
theorem onPaint_red_circle_on_solid_background (e0 : D2D1_ELLIPSE)
    (evs : List (Env × Msg)) (env : Env)
    (h : SUCCEEDED ((runMessages e0 evs).CreateGraphicsResources env).1
      = true) :
    ∃ e b, ((runMessages e0 evs).OnPaint env).cmds =
        [DrawCmd.beginDraw, DrawCmd.clear BlanchedAlmond,
         DrawCmd.fillEllipse e b, DrawCmd.endDraw] ∧
      ∀ br, b = some br → br.color = ColorF 1 0 0 := by
  rcases hcgr : (runMessages e0 evs).CreateGraphicsResources env with ⟨hr, w1⟩
  rw [hcgr] at h
  simp only at h
  refine ⟨w1.ellipse, w1.pBrush, ?_, ?_⟩
  · simp [MainWindow.OnPaint, hcgr, h]
    split <;> simp
  · intro br hbr
    have hred : brushRed w1 := by
      have := brushRed_createGraphicsResources env (runMessages e0 evs)
        (brushRed_runMessages e0 evs)
      rw [hcgr] at this
      exact this
    exact hred br hbr

/-- Witness for C2: a fresh window (arbitrary concrete initial ellipse),
no prior messages, an all-success environment with client rectangle
`4 × 6`. -/
theorem onPaint_red_circle_witness :
    (SUCCEEDED ((runMessages (Ellipse (Point2F 0 0) 1 2)
        []).CreateGraphicsResources ⟨4, 6, 0, 0, 0, 0, 0⟩).1 = true) ∧
    ∃ e b, ((runMessages (Ellipse (Point2F 0 0) 1 2) []).OnPaint
        ⟨4, 6, 0, 0, 0, 0, 0⟩).cmds =
        [DrawCmd.beginDraw, DrawCmd.clear BlanchedAlmond,
         DrawCmd.fillEllipse e b, DrawCmd.endDraw] ∧
      ∀ br, b = some br → br.color = ColorF 1 0 0 :=
  ⟨by decide,
   onPaint_red_circle_on_solid_background (Ellipse (Point2F 0 0) 1 2) []
     ⟨4, 6, 0, 0, 0, 0, 0⟩ (by decide)⟩

/-! ### C9: the drawn ellipse is a circle, except on one failure path -/

/-- C9 counterexample: on the trace where the first paint's render-target
creation succeeds but its brush creation fails (`CreateSolidColorBrush`
returns a failing `HRESULT`), `CalculateLayout` never runs, yet the next
paint finds `pRenderTarget` non-`NULL`, gets `S_OK` back, and passes the
never-initialized ellipse member — here `radiusX = 1 ≠ 2 = radiusY` —
to `FillEllipse` (with a `NULL` brush). -/
theorem onPaint_noncircular_fill_cex :
    DrawCmd.fillEllipse (Ellipse (Point2F 0 0) 1 2) none ∈
      ((runMessages (Ellipse (Point2F 0 0) 1 2)
          [(⟨4, 6, 0, -1, 0, 0, 0⟩, Msg.WM_PAINT)]).HandleMessage
            ⟨4, 6, 0, 0, 0, 0, 0⟩ Msg.WM_PAINT).cmds ∧
    allFillsCircular
      (((runMessages (Ellipse (Point2F 0 0) 1 2)
          [(⟨4, 6, 0, -1, 0, 0, 0⟩, Msg.WM_PAINT)]).HandleMessage
            ⟨4, 6, 0, 0, 0, 0, 0⟩ Msg.WM_PAINT).cmds) = false := by
  decide

/-- An environment in which brush creation succeeds whenever
render-target creation does (rules out the one path on which the program
draws without ever running `CalculateLayout`). -/
def brushAfterTarget (env : Env) : Prop :=
  SUCCEEDED env.createTargetHr = true → SUCCEEDED env.createBrushHr = true

instance (env : Env) : Decidable (brushAfterTarget env) := by
  unfold brushAfterTarget
  infer_instance

/-- Invariant: whenever the render target exists, the ellipse field holds
a circle (it was written by `CalculateLayout`). -/
def circularInv (w : MainWindow) : Prop :=
  w.pRenderTarget.isSome = true → w.ellipse.radiusX = w.ellipse.radiusY

theorem circularInv_createGraphicsResources (env : Env) (w : MainWindow)
    (henv : brushAfterTarget env) (h : circularInv w) :
    circularInv (w.CreateGraphicsResources env).2 := by
  rcases hrt : w.pRenderTarget with _ | rt
  · by_cases ht : SUCCEEDED env.createTargetHr = true
    · have hb : SUCCEEDED env.createBrushHr = true := henv ht
      intro hs
      simp [MainWindow.CreateGraphicsResources, hrt, ht, hb,
            MainWindow.CalculateLayout, Ellipse, Point2F]
    · simp only [Bool.not_eq_true] at ht
      intro hs
      simp [MainWindow.CreateGraphicsResources, hrt, ht, hrt] at hs
  · rw [createGraphicsResources_of_some env w (by rw [hrt]; rfl)]
    exact h

theorem circularInv_onPaint (env : Env) (w : MainWindow)
    (henv : brushAfterTarget env) (h : circularInv w) :
    circularInv (w.OnPaint env).window := by
  rcases hcgr : w.CreateGraphicsResources env with ⟨hr, w1⟩
  have h1 : circularInv w1 := by
    have := circularInv_createGraphicsResources env w henv h
    rw [hcgr] at this
    exact this
  by_cases hs : SUCCEEDED hr = true
  · by_cases hf : (FAILED env.endDrawHr ||
        decide (env.endDrawHr = D2DERR_RECREATE_TARGET)) = true
    · intro hrt
      rcases w1 with ⟨pf, rt, br, e⟩
      cases rt <;> cases br <;>
        simp [MainWindow.OnPaint, hcgr, hs, hf,
              MainWindow.DiscardGraphicsResources, SafeRelease] at hrt
    · simp only [Bool.not_eq_true] at hf
      simpa [MainWindow.OnPaint, hcgr, hs, hf] using h1
  · simp only [Bool.not_eq_true] at hs
    simpa [MainWindow.OnPaint, hcgr, hs] using h1

theorem circularInv_handleMessage (env : Env) (m : Msg) (w : MainWindow)
    (henv : brushAfterTarget env) (h : circularInv w) :
    circularInv (w.HandleMessage env m).window := by
  cases m with
  | WM_CREATE =>
    by_cases hf : FAILED env.createFactoryHr = true
    · simpa [MainWindow.HandleMessage, hf] using h
    · simp only [Bool.not_eq_true] at hf
      intro hs
      simp [MainWindow.HandleMessage, hf] at hs ⊢
      exact h hs
  | WM_DESTROY =>
    intro hrt
    rw [(handleMessage_destroy_releases_all env w).1] at hrt
    simp at hrt
  | WM_PAINT =>
    intro hrt
    exact circularInv_onPaint env w henv h (by
      simpa [MainWindow.HandleMessage] using hrt)
  | WM_SIZE =>
    rcases hrt : w.pRenderTarget with _ | rt
    · simpa [MainWindow.HandleMessage, MainWindow.Resize, hrt] using h
    · intro _
      simp [MainWindow.HandleMessage, MainWindow.Resize, hrt,
            MainWindow.CalculateLayout, Ellipse, Point2F]
  | other u =>
    simpa [MainWindow.HandleMessage] using h

theorem circularInv_runMessages (e0 : D2D1_ELLIPSE)
    (evs : List (Env × Msg)) (hevs : ∀ p ∈ evs, brushAfterTarget p.1) :
    circularInv (runMessages e0 evs) := by
  have key : ∀ (l : List (Env × Msg)), (∀ p ∈ l, brushAfterTarget p.1) →
      ∀ (w : MainWindow), circularInv w →
      circularInv (l.foldl (fun w p => (w.HandleMessage p.1 p.2).window) w) := by
    intro l
    induction l with
    | nil => intro _ w h; exact h
    | cons p rest ih =>
      intro hl w h
      exact ih (fun q hq => hl q (List.mem_cons_of_mem p hq)) _
        (circularInv_handleMessage p.1 p.2 w (hl p (List.mem_cons_self p rest)) h)
  exact key evs hevs (MainWindow.ctor e0) (by
    intro hs
    simp [MainWindow.ctor] at hs)

theorem onPaint_fills_circular (env : Env) (w : MainWindow)
    (henv : brushAfterTarget env) (h : circularInv w) :
    allFillsCircular (w.OnPaint env).cmds = true := by
  rcases hcgr : w.CreateGraphicsResources env with ⟨hr, w1⟩
  by_cases hs : SUCCEEDED hr = true
  · have h1 : circularInv w1 := by
      have := circularInv_createGraphicsResources env w henv h
      rw [hcgr] at this
      exact this
    have hsome : w1.pRenderTarget.isSome = true := by
      have := createGraphicsResources_target_isSome env w (by rw [hcgr]; exact hs)
      rw [hcgr] at this
      exact this
    have hcirc : w1.ellipse.radiusX = w1.ellipse.radiusY := h1 hsome
    simp [MainWindow.OnPaint, hcgr, hs]
    split <;> simp [allFillsCircular, hcirc]
  · simp only [Bool.not_eq_true] at hs
    simp [MainWindow.OnPaint, hcgr, hs, allFillsCircular]

/-- C9 amended: any ellipse passed to `FillEllipse` has
`radiusX = radiusY` on every execution in which brush creation succeeds
whenever render-target creation does — then `OnPaint` only draws after
`CalculateLayout` has run, and every assignment by `CalculateLayout` sets
both radii to the same value. (Without that proviso the claim fails: see
the counterexample, where a failed brush creation lets a later paint draw
the never-initialized ellipse member.) -/
theorem handleMessage_fills_circular (e0 : D2D1_ELLIPSE)
    (evs : List (Env × Msg)) (env : Env) (m : Msg)
    (hevs : ∀ p ∈ evs, brushAfterTarget p.1) (henv : brushAfterTarget env) :
    allFillsCircular (((runMessages e0 evs).HandleMessage env m).cmds)
      = true := by
  have hinv : circularInv (runMessages e0 evs) :=
    circularInv_runMessages e0 evs hevs
  cases m with
  | WM_CREATE =>
    by_cases hf : FAILED env.createFactoryHr = true
    · simp [MainWindow.HandleMessage, hf, allFillsCircular]
    · simp only [Bool.not_eq_true] at hf
      simp [MainWindow.HandleMessage, hf, allFillsCircular]
  | WM_DESTROY => simp [MainWindow.HandleMessage, allFillsCircular]
  | WM_PAINT =>
    simpa [MainWindow.HandleMessage] using
      onPaint_fills_circular env (runMessages e0 evs) henv hinv
  | WM_SIZE => simp [MainWindow.HandleMessage, allFillsCircular]
  | other u => simp [MainWindow.HandleMessage, allFillsCircular]

/-- Witness for the amended C9: empty history, an all-success
environment, a `WM_PAINT`. -/
theorem handleMessage_fills_circular_witness :
    (∀ p ∈ ([] : List (Env × Msg)), brushAfterTarget p.1) ∧
    brushAfterTarget ⟨4, 6, 0, 0, 0, 0, 0⟩ ∧
    allFillsCircular
      (((runMessages (Ellipse (Point2F 0 0) 1 2) []).HandleMessage
          ⟨4, 6, 0, 0, 0, 0, 0⟩ Msg.WM_PAINT).cmds) = true :=
  ⟨by simp, by decide,
   handleMessage_fills_circular (Ellipse (Point2F 0 0) 1 2) []
     ⟨4, 6, 0, 0, 0, 0, 0⟩ Msg.WM_PAINT (by simp) (by decide)⟩

/-- C2 counterexample: after a paint whose render-target creation
succeeded but whose brush creation failed, the next paint is successful
(`CreateGraphicsResources` returns `S_OK` because the target exists), yet
its `FillEllipse` carries a `NULL` brush — no red brush was ever
created — so that paint does not draw a red circle. -/
theorem onPaint_null_brush_cex :
    SUCCEEDED ((runMessages (Ellipse (Point2F 0 0) 1 2)
        [(⟨4, 6, 0, -1, 0, 0, 0⟩, Msg.WM_PAINT)]).CreateGraphicsResources
          ⟨4, 6, 0, 0, 0, 0, 0⟩).1 = true ∧
    DrawCmd.fillEllipse (Ellipse (Point2F 0 0) 1 2) none ∈
      ((runMessages (Ellipse (Point2F 0 0) 1 2)
          [(⟨4, 6, 0, -1, 0, 0, 0⟩, Msg.WM_PAINT)]).OnPaint
            ⟨4, 6, 0, 0, 0, 0, 0⟩).cmds := by
  decide
